import Mathlib

/-!
# Verification of `nengo_gui/static/components/xyvalue.js` (Nengo.XYValue)

Shallow embedding of the XY-value phase-plot component. JavaScript numbers
are modelled as rationals (`ℚ`); the DOM/d3 render surface is modelled by
the data handed to it (the path's point list, the tracking circle's centre,
the number of rectangles under the warning label, the axes' domains and
tick values). A JavaScript `TypeError` (indexing `undefined`) aborts the
handler, so state-transforming operations return `Option` — `none` models
a thrown exception.
-/

set_option autoImplicit false

namespace NengoViz

/--
Modelled from the spec: `Nengo.DataStore` (the Windowed Series Store of
§2/§6) is not part of the analysed sources; only its use sites in
`xyvalue.js` are. Per §3 the vector dimensionality is fixed at `dims` for
the lifetime of the store, and per §6 the store exposes `append`,
time-based eviction and a per-dimension snapshot. `entries` is the ordered
sample stream: each entry is a simulation timestamp paired with one
N-dimensional sample. The per-dimension view `data` (what `xyvalue.js`
reads as `data_store.data`) therefore always has exactly `dims` rows,
however many samples are stored.
-/
structure DataStore where
  dims : Nat
  entries : List (ℚ × List ℚ)
deriving DecidableEq

/-- Per-dimension (column-major) view: `data[i]` is the stream of values of
dimension `i`, one per stored sample. This layout is forced by the use
sites in `xyvalue.js` (`data_store.data[this.index_y]`,
`shown_data[self.index_x][i]`). -/
def DataStore.data (ds : DataStore) : List (List ℚ) :=
  (List.range ds.dims).map (fun i => ds.entries.map (fun e => e.2.getD i 0))

/-- Modelled from the spec: time-based eviction (`evict_outside_window`);
samples before the window lower bound `tMin` are discarded. -/
def DataStore.update (tMin : ℚ) (ds : DataStore) : DataStore :=
  { ds with entries := ds.entries.filter (fun e => tMin ≤ e.1) }

/-- Modelled from the spec: `snapshot()` returns the per-dimension ordered
arrays of the current window (the store holds exactly the window after
eviction). -/
def DataStore.get_shown_data (ds : DataStore) : List (List ℚ) :=
  ds.data

/-- Modelled from the spec: `append(sample)` with the sample's simulation
timestamp. -/
def DataStore.push (t : ℚ) (sample : List ℚ) (ds : DataStore) : DataStore :=
  { ds with entries := ds.entries ++ [(t, sample)] }

/-- Modelled from the spec: `clear()` discards the sample stream; the
dimensionality is a lifetime invariant and is kept. -/
def DataStore.reset (ds : DataStore) : DataStore :=
  { ds with entries := [] }

/-- JavaScript array indexing `arr[i]` where `i` is an arbitrary number:
defined (`some`) exactly when `i` is a non-negative integer below the
length, `undefined` (`none`) otherwise (negative, fractional or too-large
indices all read an absent property). -/
def jsGet? (l : List (List ℚ)) (i : ℚ) : Option (List ℚ) :=
  if i.den = 1 ∧ 0 ≤ i.num then l.get? i.num.toNat else none

/--
State of one `Nengo.XYValue` instance, from the constructor
(`xyvalue.js` lines 18–65):
* `n_lines` — `args.n_lines`, the dimension count N;
* `data_store` — `new Nengo.DataStore(this.n_lines, this.sim, 0)`;
* `index_x`, `index_y` — the two selected dimensions (JS numbers);
* `min_val` / `max_val` — `axes2d.min_val` / `axes2d.max_val`;
* `domain_x` / `domain_y` — `axes2d.scale_x.domain()` / `scale_y.domain()`;
* `ticks_x` / `ticks_y` — the axes' tick values;
* `invalid_dims` — the warning flag, `false` at construction;
* `path` — the `d` attribute of the line, as the list of data-space points
  handed to the d3 line generator (`none` until first set);
* `marker` — the tracking circle's centre in data space;
* `warning_rects` — number of children appended to `warning_label`;
* `width` / `height` — the component's current size.
-/
structure XYValue where
  n_lines : Nat
  data_store : DataStore
  index_x : ℚ
  index_y : ℚ
  min_val : ℚ
  max_val : ℚ
  domain_x : ℚ × ℚ
  domain_y : ℚ × ℚ
  ticks_x : List ℚ
  ticks_y : List ℚ
  invalid_dims : Bool
  path : Option (List (ℚ × ℚ))
  marker : ℚ × ℚ
  warning_rects : Nat
  width : ℚ
  height : ℚ
deriving DecidableEq

/-- `Nengo.XYValue.prototype.update` (lines 81–132). The redraw:
1. `this.data_store.update()` — let the store evict old values;
2. if `this.data_store.data.length > 1` (more than one *dimension*):
   pull `get_shown_data()`; read `shown_data[self.index_x].length`
   (a `TypeError`, i.e. `none`, if `index_x` does not index the
   per-dimension array); if `last_index >= 0`, set the path to the
   pointwise zip of `shown_data[index_x]` with `shown_data[index_y]`
   (d3 iterates the bound `shown_data[index_y]`, taking x from
   `shown_data[index_x]` at the same position; a `TypeError` if `index_y`
   is not a valid dimension) and move the circle to the last such pair;
   then, if `invalid_dims` was true, empty the warning label and clear it;
3. else (at most one dimension), if `invalid_dims` is false, set it and
   append the warning rectangle.
In the model the two columns always have equal length (both are columns of
`entries`), so the zip and the `getD`-reads of the last pair are exact. -/
def XYValue.update (t : ℚ) (s : XYValue) : Option XYValue :=
  let ds := s.data_store.update t
  let s0 := { s with data_store := ds }
  if 1 < ds.data.length then
    match jsGet? ds.get_shown_data s0.index_x with
    | none => none
    | some colx =>
      let last_index : ℤ := (colx.length : ℤ) - 1
      let step1 : Option XYValue :=
        if 0 ≤ last_index then
          match jsGet? ds.get_shown_data s0.index_y with
          | none => none
          | some coly =>
            some { s0 with
                   path := some (colx.zip coly)
                   marker := (colx.getD (colx.length - 1) 0,
                              coly.getD (colx.length - 1) 0) }
        else some s0
      step1.map (fun s1 =>
        if s1.invalid_dims then
          { s1 with warning_rects := 0, invalid_dims := false }
        else s1)
  else
    if s0.invalid_dims = false then
      some { s0 with invalid_dims := true,
                     warning_rects := s0.warning_rects + 1 }
    else some s0

/-- `Nengo.XYValue.prototype.reset` (lines 292–295): clear the store and
schedule a redraw (the redraw itself is a later `update` call by the
scheduler; scheduling has no further effect on this state). -/
def XYValue.reset (s : XYValue) : XYValue :=
  { s with data_store := s.data_store.reset }

/-- `Nengo.XYValue.prototype.on_message` (lines 72–76): decode the binary
frame and push it, tagged with the current simulation time. -/
def XYValue.on_message (t : ℚ) (sample : List ℚ) (s : XYValue) : XYValue :=
  { s with data_store := s.data_store.push t sample }

/-- `Nengo.XYValue.prototype.on_resize` (lines 137–155): resize the axes
(external), redraw via `update()`, then record the new width and height
(the circle radius `min(width, height)/30` and the warning rectangle's
extent are derived from these and the rect count, so they carry no extra
state). A `TypeError` thrown by `update()` aborts before the size fields
are written. -/
def XYValue.on_resize (t : ℚ) (w h : ℚ) (s : XYValue) : Option XYValue :=
  (s.update t).map (fun s1 => { s1 with width := w, height := h })

/-- Lines 157–159: `min(width, height) / 30`. -/
def XYValue.get_circle_radius (s : XYValue) : ℚ :=
  min s.width s.height / 30

/-- The assignment part of `Nengo.XYValue.prototype.update_range`
(lines 234–242): unconditionally write `min_val`, `max_val`, both scale
domains and both axes' tick values. -/
def XYValue.set_range_fields (mn mx : ℚ) (s : XYValue) : XYValue :=
  { s with min_val := mn, max_val := mx
           domain_x := (mn, mx), domain_y := (mn, mx)
           ticks_x := [mn, mx], ticks_y := [mn, mx] }

/-- `Nengo.XYValue.prototype.update_range` (lines 234–244): the
assignments above, then `on_resize(get_screen_width(), get_screen_height())`
at the current size. -/
def XYValue.update_range (t : ℚ) (mn mx : ℚ) (s : XYValue) : Option XYValue :=
  (s.set_range_fields mn mx).on_resize t s.width s.height

/-- `Nengo.XYValue.prototype.update_indices` (lines 286–290):
unconditionally write both indices, then `this.update()`. -/
def XYValue.update_indices (t : ℚ) (ix iy : ℚ) (s : XYValue) : Option XYValue :=
  XYValue.update t { s with index_x := ix, index_y := iy }

/-- The persisted configuration record (`layout_info` lines 172–179 /
`update_layout` line 181): `{min_value, max_value, index_x, index_y}`. -/
structure XYConfig where
  index_x : ℚ
  index_y : ℚ
  min_value : ℚ
  max_value : ℚ
deriving DecidableEq

/-- `Nengo.XYValue.prototype.layout_info` (lines 172–179): export the
scale-y domain endpoints and the two indices (the base component's fields
are external). -/
def XYValue.layout_info (s : XYValue) : XYConfig :=
  ⟨s.index_x, s.index_y, s.domain_y.1, s.domain_y.2⟩

/-- `Nengo.XYValue.prototype.update_layout` (lines 181–185): apply the
persisted indices (which redraws), then the persisted range (which
redraws again); the trailing `Nengo.Component.prototype.update_layout`
call only restores base-component geometry (external). -/
def XYValue.update_layout (t : ℚ) (cfg : XYConfig) (s : XYValue) :
    Option XYValue :=
  (s.update_indices t cfg.index_x cfg.index_y).bind
    (XYValue.update_range t cfg.min_value cfg.max_value)

/-!
## Modal validators and submit handlers

The `set_range` / `set_indices` dialogs take one text field, split on a
comma. A token is modelled post-`Number`/`parseFloat` as `Option ℚ`:
`some q` for a numeric token with value `q`, `none` for a non-numeric one
(JS `NaN`, for which every comparison and the `parseInt` equality test is
false, as is `$.isNumeric`).
-/

/-- The custom validator of `set_range` (lines 210–227): exactly two
tokens, both numeric, first strictly below second, product at most zero
(the axes must cross at zero). -/
def xy_range_validator (nums : List (Option ℚ)) : Bool :=
  let valid :=
    match nums.getD 0 none, nums.getD 1 none with
    | some a, some b => decide (a < b) && decide (a * b ≤ 0)
    | _, _ => false
  (nums.length == 2) && valid

/-- The custom validator of `set_indices` (lines 266–277): both tokens
integral (`parseInt(Number(x)) == x`), exactly two of them, and both in
`[0, n_lines)`. A non-numeric token fails every comparison. -/
def xy_indices_validator (n_lines : Nat) (nums : List (Option ℚ)) : Bool :=
  match nums.getD 0 none, nums.getD 1 none with
  | some a, some b =>
    (a.den == 1) && (b.den == 1) && (nums.length == 2) &&
      (decide (b < (n_lines : ℚ)) && decide (0 ≤ b)) &&
      (decide (a < (n_lines : ℚ)) && decide (0 ≤ a))
  | _, _ => false

/-- The OK-handler of `Nengo.XYValue.prototype.set_range`
(lines 187–232): if the validator reports errors the handler returns with
the component untouched; otherwise it parses the two floats and runs
`update_range`, then `update()` (then `save_layout()`, external
persistence). -/
def XYValue.set_range_submit (t : ℚ) (input : List (Option ℚ))
    (s : XYValue) : Option XYValue :=
  if xy_range_validator input then
    match input with
    | [some mn, some mx] => (s.update_range t mn mx).bind (XYValue.update t)
    | _ => some s
  else some s

/-- The OK-handler of `Nengo.XYValue.prototype.set_indices`
(lines 246–284): if the validator reports errors the handler returns with
the component untouched; otherwise it parses the two integers and runs
`update_indices` (then `save_layout()`, external persistence). `parseInt`
of an integral numeric token is the token's value. -/
def XYValue.set_indices_submit (t : ℚ) (input : List (Option ℚ))
    (s : XYValue) : Option XYValue :=
  if xy_indices_validator s.n_lines input then
    match input with
    | [some a, some b] => s.update_indices t a b
    | _ => some s
  else some s

/-!
## Draw-instrumented variants

`update()` is the only render step. To reason about the *order* of draws
inside compound operations, each operation that invokes `update()` is
replayed with a log of the indices and domains in effect at each
invocation (these are exactly the inputs the d3 line generator and the
scales read, and `update()` itself never changes them). Each traced
variant is proved to project to its plain counterpart.
-/

/-- What one `update()` invocation renders with: the selected indices and
the two scale domains at call time. -/
structure Draw where
  index_x : ℚ
  index_y : ℚ
  domain_x : ℚ × ℚ
  domain_y : ℚ × ℚ
deriving DecidableEq

/-- The draw record of an `update()` run from state `s`. -/
def XYValue.draw_of (s : XYValue) : Draw :=
  ⟨s.index_x, s.index_y, s.domain_x, s.domain_y⟩

/-- `update` with its single draw logged. -/
def XYValue.updateT (t : ℚ) (s : XYValue) : Option XYValue × List Draw :=
  (s.update t, [s.draw_of])

/-- `on_resize` with its draw log. -/
def XYValue.on_resizeT (t : ℚ) (w h : ℚ) (s : XYValue) :
    Option XYValue × List Draw :=
  let (r, ds) := s.updateT t
  (r.map (fun s1 => { s1 with width := w, height := h }), ds)

/-- `update_range` with its draw log. -/
def XYValue.update_rangeT (t : ℚ) (mn mx : ℚ) (s : XYValue) :
    Option XYValue × List Draw :=
  (s.set_range_fields mn mx).on_resizeT t s.width s.height

/-- `update_indices` with its draw log. -/
def XYValue.update_indicesT (t : ℚ) (ix iy : ℚ) (s : XYValue) :
    Option XYValue × List Draw :=
  XYValue.updateT t { s with index_x := ix, index_y := iy }

/-- `update_layout` with its draw log (draws of the failing prefix are
kept; a thrown `TypeError` aborts the rest). -/
def XYValue.update_layoutT (t : ℚ) (cfg : XYConfig) (s : XYValue) :
    Option XYValue × List Draw :=
  let p := s.update_indicesT t cfg.index_x cfg.index_y
  match p.1 with
  | none => (none, p.2)
  | some s1 =>
    let q := s1.update_rangeT t cfg.min_value cfg.max_value
    (q.1, p.2 ++ q.2)

/-- The constructor state (`xyvalue.js` lines 18–65), before the
constructor's trailing `on_resize`: empty store of `n_lines` dimensions,
axes at `[min_value, max_value]`, no warning, circle at the origin, no
path drawn yet. -/
def mkXYValue (n_lines : Nat) (ix iy mn mx w h : ℚ) : XYValue :=
  { n_lines := n_lines
    data_store := ⟨n_lines, []⟩
    index_x := ix
    index_y := iy
    min_val := mn
    max_val := mx
    domain_x := (mn, mx)
    domain_y := (mn, mx)
    ticks_x := [mn, mx]
    ticks_y := [mn, mx]
    invalid_dims := false
    path := none
    marker := (0, 0)
    warning_rects := 0
    width := w
    height := h }

/-- `i` denotes a valid dimension of a `d`-dimensional store under
JavaScript indexing: a non-negative integer below `d`. -/
def ValidIndex (d : Nat) (i : ℚ) : Prop :=
  i.den = 1 ∧ 0 ≤ i.num ∧ i.num.toNat < d

instance (d : Nat) (i : ℚ) : Decidable (ValidIndex d i) := by
  unfold ValidIndex; infer_instance

/-! ## Example states used by witnesses and counterexamples -/

/-- A one-dimensional component (N = 1), fresh, indices 0/0, range [-1, 1],
viewport 100×100. -/
def exOneDim : XYValue := mkXYValue 1 0 0 (-1) 1 100 100

/-- A two-dimensional component (N = 2), fresh and with an empty stream,
indices 0/1, range [-1, 1]. -/
def exTwoDim : XYValue := mkXYValue 2 0 1 (-1) 1 100 100

/-- A three-dimensional component that has received the samples
`[0,0,0]`, `[1,2,3]`, `[4,5,6]` at times 0, 1, 2, with
`index_x = 0`, `index_y = 1` (the §8 scenario). -/
def exThreeDim : XYValue :=
  ((mkXYValue 3 0 1 (-1) 1 100 100).on_message 0 [0, 0, 0]
    |>.on_message 1 [1, 2, 3] |>.on_message 2 [4, 5, 6])

/-- The state the redraw after `exThreeDim.reset` produces: the stream is
empty, the warning stays off. -/
def exThreeDimResetDrawn : XYValue := { exThreeDim with data_store := ⟨3, []⟩ }

/-- The state a first redraw of `exOneDim` produces: warning on, one
warning rectangle. -/
def exOneDimDrawn : XYValue :=
  { exOneDim with invalid_dims := true, warning_rects := 1 }

/-- The state `update_layout` leaves behind on the C4 witness input: both
new indices and the new range installed, nothing drawn (empty stream). -/
def exLayoutDrawn : XYValue :=
  { mkXYValue 2 1 0 (-2) 2 100 100 with ticks_x := [-2, 2], ticks_y := [-2, 2] }

/-- The state the first redraw of `exThreeDim` produces: path
`(0,0), (1,2), (4,5)`, marker `(4,5)`. -/
def exThreeDimDrawn : XYValue :=
  { exThreeDim with path := some [(0, 0), (1, 2), (4, 5)], marker := (4, 5) }

/-! ## Store lemmas -/

lemma DataStore.length_data (ds : DataStore) : ds.data.length = ds.dims := by
  simp [DataStore.data]

lemma DataStore.dims_update (t : ℚ) (ds : DataStore) :
    (ds.update t).dims = ds.dims := rfl

lemma DataStore.update_update (t : ℚ) (ds : DataStore) :
    (ds.update t).update t = ds.update t := by
  simp only [DataStore.update, mk.injEq, and_true, true_and]
  exact List.filter_eq_self.2 (fun a ha => (List.mem_filter.1 ha).2)

lemma DataStore.dims_reset (ds : DataStore) : ds.reset.dims = ds.dims := rfl

/-- A valid dimension index resolves the snapshot to the corresponding
column of the entries. -/
lemma jsGet?_shown_of_valid (ds : DataStore) (i : ℚ)
    (h : ValidIndex ds.dims i) :
    jsGet? ds.get_shown_data i =
      some (ds.entries.map (fun e => e.2.getD i.num.toNat 0)) := by
  obtain ⟨h1, h2, h3⟩ := h
  simp only [jsGet?, DataStore.get_shown_data, DataStore.data]
  rw [if_pos (⟨h1, h2⟩ : i.den = 1 ∧ 0 ≤ i.num), List.get?_map,
    List.get?_range h3, Option.map_some']

/-! ## Redraw lemmas -/

/-- Whatever branch a successful redraw takes, it only evicts the store,
recomputes `invalid_dims` (true exactly when at most one dimension is
stored), the warning rectangles, the path and the marker; the selected
indices, the range, the axes' domains and ticks, and the component size
are untouched. -/
lemma update_fields {t : ℚ} {s s1 : XYValue}
    (h : XYValue.update t s = some s1) :
    s1.data_store = s.data_store.update t ∧
    s1.invalid_dims = decide (s.data_store.dims ≤ 1) ∧
    s1.n_lines = s.n_lines ∧
    s1.index_x = s.index_x ∧ s1.index_y = s.index_y ∧
    s1.min_val = s.min_val ∧ s1.max_val = s.max_val ∧
    s1.domain_x = s.domain_x ∧ s1.domain_y = s.domain_y ∧
    s1.ticks_x = s.ticks_x ∧ s1.ticks_y = s.ticks_y ∧
    s1.width = s.width ∧ s1.height = s.height := by
  simp only [XYValue.update, DataStore.length_data, DataStore.dims_update] at h
  split at h
  case isTrue hgt =>
    have hd : ¬ s.data_store.dims ≤ 1 := Nat.not_le.2 hgt
    split at h
    case h_1 => exact absurd h (by simp)
    case h_2 colx heq =>
      split at h
      case isTrue hlen =>
        split at h
        case h_1 => exact absurd h (by simp)
        case h_2 coly heqy =>
          simp only [Option.map_some', Option.some.injEq] at h
          split at h <;> subst h <;> simp_all
      case isFalse hlen =>
        simp only [Option.map_some', Option.some.injEq] at h
        split at h <;> subst h <;> simp_all
  case isFalse hle =>
    have hd : s.data_store.dims ≤ 1 := Nat.le_of_not_lt hle
    split at h <;>
      simp only [Option.some.injEq] at h <;> subst h <;> simp_all

/-- At most one stored dimension: the redraw takes the warning branch,
leaving the path and marker alone and raising the warning. -/
lemma update_of_dims_le_one {t : ℚ} {s : XYValue}
    (hd : s.data_store.dims ≤ 1) :
    XYValue.update t s =
      some (if s.invalid_dims = false then
              { s with data_store := s.data_store.update t,
                       invalid_dims := true,
                       warning_rects := s.warning_rects + 1 }
            else { s with data_store := s.data_store.update t }) := by
  simp only [XYValue.update, DataStore.length_data, DataStore.dims_update,
    if_neg (Nat.not_lt.2 hd)]
  split <;> rfl

/-- A redraw throws no `TypeError` as long as any stored dimensions above
one come with valid selected indices. -/
lemma update_isSome {t : ℚ} {s : XYValue}
    (hok : 1 < s.data_store.dims →
      ValidIndex s.data_store.dims s.index_x ∧
      ValidIndex s.data_store.dims s.index_y) :
    (XYValue.update t s).isSome := by
  by_cases hd : 1 < s.data_store.dims
  · obtain ⟨hx, hy⟩ := hok hd
    have hx2 : ValidIndex (s.data_store.update t).dims s.index_x := hx
    have hy2 : ValidIndex (s.data_store.update t).dims s.index_y := hy
    simp only [XYValue.update, DataStore.length_data, DataStore.dims_update,
      if_pos hd, jsGet?_shown_of_valid _ _ hx2, jsGet?_shown_of_valid _ _ hy2]
    split <;> simp
  · rw [update_of_dims_le_one (Nat.le_of_not_lt hd)]
    simp

/-- Success and effect of `update_indices`: whenever the embedded redraw
returns, the written indices are the given ones and everything but the
render state is preserved. -/
lemma update_indices_fields {t ix iy : ℚ} {s s1 : XYValue}
    (h : XYValue.update_indices t ix iy s = some s1) :
    s1.index_x = ix ∧ s1.index_y = iy ∧
    s1.min_val = s.min_val ∧ s1.max_val = s.max_val ∧
    s1.domain_x = s.domain_x ∧ s1.domain_y = s.domain_y ∧
    s1.data_store.dims = s.data_store.dims ∧ s1.n_lines = s.n_lines := by
  rw [XYValue.update_indices] at h
  obtain ⟨hds, -, hn, hix, hiy, hmn, hmx, hdx, hdy, -⟩ := update_fields h
  exact ⟨hix, hiy, hmn, hmx, hdx, hdy, by rw [hds]; rfl, hn⟩

lemma update_indices_isSome {t ix iy : ℚ} {s : XYValue}
    (hok : 1 < s.data_store.dims →
      ValidIndex s.data_store.dims ix ∧ ValidIndex s.data_store.dims iy) :
    (XYValue.update_indices t ix iy s).isSome := by
  rw [XYValue.update_indices]
  exact update_isSome hok

/-- Success and effect of `update_range`: whenever the embedded
resize/redraw returns, the new bounds are installed on both axes and the
indices are preserved. -/
lemma update_range_fields {t mn mx : ℚ} {s s1 : XYValue}
    (h : XYValue.update_range t mn mx s = some s1) :
    s1.min_val = mn ∧ s1.max_val = mx ∧
    s1.domain_x = (mn, mx) ∧ s1.domain_y = (mn, mx) ∧
    s1.ticks_x = [mn, mx] ∧ s1.ticks_y = [mn, mx] ∧
    s1.index_x = s.index_x ∧ s1.index_y = s.index_y ∧
    s1.data_store.dims = s.data_store.dims := by
  rw [XYValue.update_range, XYValue.on_resize] at h
  obtain ⟨u, hu, hmap⟩ := Option.map_eq_some'.1 h
  obtain ⟨hds, -, -, hix, hiy, hmn, hmx, hdx, hdy, htx, hty, -⟩ :=
    update_fields hu
  subst hmap
  exact ⟨hmn, hmx, hdx, hdy, htx, hty, hix, hiy, by rw [hds]; rfl⟩

lemma update_range_isSome {t mn mx : ℚ} {s : XYValue}
    (hok : 1 < s.data_store.dims →
      ValidIndex s.data_store.dims s.index_x ∧
      ValidIndex s.data_store.dims s.index_y) :
    (XYValue.update_range t mn mx s).isSome := by
  rw [XYValue.update_range, XYValue.on_resize, Option.isSome_map']
  exact update_isSome hok

/-- The range validator passes exactly on a two-token numeric input whose
first value is strictly below the second and whose product is at most
zero. -/
lemma xy_range_validator_eq_true_iff (input : List (Option ℚ)) :
    xy_range_validator input = true ↔
      ∃ a b : ℚ, input = [some a, some b] ∧ a < b ∧ a * b ≤ 0 := by
  rcases input with - | ⟨a, - | ⟨b, rest⟩⟩
  · simp [xy_range_validator]
  · cases a <;> simp [xy_range_validator]
  · rcases rest with - | ⟨c, rest⟩
    · cases a <;> cases b <;> simp [xy_range_validator, and_assoc]
    · cases a <;> cases b <;> simp [xy_range_validator]

/-- The indices validator passes exactly on a two-token numeric input of
two integral values, both within `[0, n_lines)`. -/
lemma xy_indices_validator_eq_true_iff (N : Nat) (input : List (Option ℚ)) :
    xy_indices_validator N input = true ↔
      ∃ a b : ℚ, input = [some a, some b] ∧ a.den = 1 ∧ b.den = 1 ∧
        0 ≤ a ∧ a < (N : ℚ) ∧ 0 ≤ b ∧ b < (N : ℚ) := by
  rcases input with - | ⟨a, - | ⟨b, rest⟩⟩
  · simp [xy_indices_validator]
  · cases a <;> simp [xy_indices_validator]
  · rcases rest with - | ⟨c, rest⟩
    · cases a <;> cases b <;>
        simp [xy_indices_validator, and_assoc] <;> tauto
    · cases a <;> cases b <;> simp [xy_indices_validator]

/-- An integral rational in `[0, N)` is a valid JavaScript dimension
index. -/
lemma validIndex_of_rat {N : Nat} {a : ℚ} (h1 : a.den = 1) (h2 : 0 ≤ a)
    (h3 : a < (N : ℚ)) : ValidIndex N a := by
  have ha : (a.num : ℚ) = a := (Rat.den_eq_one_iff a).1 h1
  have h2n : 0 ≤ a.num := Rat.num_nonneg.2 h2
  have h3n : a.num < (N : ℤ) := by
    rw [← ha] at h3
    exact_mod_cast h3
  exact ⟨h1, h2n, (Int.toNat_lt' (by omega)).2 (by omega)⟩

/-- Reading a list at its last position via `getD`, as
`shown_data[...][last_index]` does. -/
lemma getD_length_sub_one {l : List ℚ} (d : ℚ) (h : l ≠ []) :
    l.getD (l.length - 1) d = l.getLastD d := by
  induction l with
  | nil => exact absurd rfl h
  | cons a l ih =>
    cases l with
    | nil => rfl
    | cons b l =>
      rw [List.getLastD_cons]
      exact ih (by simp)

/-! ## Traced variants project to the plain operations -/

lemma updateT_fst (t : ℚ) (s : XYValue) :
    (s.updateT t).1 = s.update t := rfl

lemma update_indicesT_fst (t ix iy : ℚ) (s : XYValue) :
    (s.update_indicesT t ix iy).1 = s.update_indices t ix iy := rfl

lemma update_rangeT_fst (t mn mx : ℚ) (s : XYValue) :
    (s.update_rangeT t mn mx).1 = s.update_range t mn mx := rfl

lemma update_layoutT_fst (t : ℚ) (cfg : XYConfig) (s : XYValue) :
    (XYValue.update_layoutT t cfg s).1 = XYValue.update_layout t cfg s := by
  simp only [XYValue.update_layoutT, XYValue.update_layout,
    XYValue.update_indicesT, XYValue.updateT]
  cases hx : XYValue.update_indices t cfg.index_x cfg.index_y s <;>
    simp [XYValue.update_indices, XYValue.update_rangeT, XYValue.on_resizeT,
      XYValue.updateT, XYValue.update_range, XYValue.on_resize] at hx ⊢ <;>
    rw [hx]

/-! ## Claims -/

/-- C1, counterexample: with N = 2 and an empty stream a redraw does NOT
set `invalid_dimensions`; the code branches on the number of stored
dimensions (`data_store.data.length`), which is 2 here, so the warning is
left off (`invalid_dims = false`) — the claim predicts `true`. (No path
is drawn, as the claim also says: that half is unaffected.) -/
theorem update_empty_two_dims_counterexample :
    (XYValue.update 0 exTwoDim).map XYValue.invalid_dims = some false ∧
    ¬ (XYValue.update 0 exTwoDim).map XYValue.invalid_dims = some true ∧
    (XYValue.update 0 exTwoDim).map XYValue.path = some none := by
  decide

/-- C1 (amended): the warning branch of `update` is keyed on the stored
dimension count, not on the number of retrievable points in the window
snapshot. If at most one dimension is stored, a redraw sets
`invalid_dims = true`, leaves path and marker untouched (path rendering
suppressed) and shows the warning overlay (appends its rectangle unless
already shown). If more than one dimension is stored and the snapshot is
empty — e.g. N = 2 with an empty stream — the redraw yields
`invalid_dims = false` and still draws no path. -/
theorem update_warning_tracks_dimension_count :
    (∀ (t : ℚ) (s : XYValue), s.data_store.dims ≤ 1 →
      ∃ s1, XYValue.update t s = some s1 ∧ s1.invalid_dims = true ∧
        s1.path = s.path ∧ s1.marker = s.marker ∧
        s1.warning_rects =
          (if s.invalid_dims then s.warning_rects
           else s.warning_rects + 1)) ∧
    (∀ (t : ℚ) (s : XYValue), 1 < s.data_store.dims →
      ValidIndex s.data_store.dims s.index_x →
      (s.data_store.update t).entries = [] →
      ∃ s1, XYValue.update t s = some s1 ∧ s1.invalid_dims = false ∧
        s1.path = s.path ∧ s1.marker = s.marker) := by
  constructor
  · intro t s hd
    rw [update_of_dims_le_one hd]
    cases hi : s.invalid_dims <;> simp [hi]
  · intro t s hd hx hemp
    have hx2 : ValidIndex (s.data_store.update t).dims s.index_x := hx
    refine ⟨?_, ?_, ?_⟩
    · exact if s.invalid_dims then
        { s with data_store := s.data_store.update t,
                 warning_rects := 0, invalid_dims := false }
      else { s with data_store := s.data_store.update t }
    · simp only [XYValue.update, DataStore.length_data,
        DataStore.dims_update, if_pos hd, jsGet?_shown_of_valid _ _ hx2,
        hemp, List.map_nil]
      cases hi : s.invalid_dims <;> simp [hi]
    · cases hi : s.invalid_dims <;> simp [hi]

/-- C1 witness: part one at the one-dimensional fresh component (warning
comes on, one rectangle appended), part two at the two-dimensional fresh
component with an empty stream (warning stays off, no path). -/
theorem update_warning_tracks_dimension_count_witness :
    (∃ s1, XYValue.update 0 exOneDim = some s1 ∧ s1.invalid_dims = true ∧
      s1.path = exOneDim.path ∧ s1.marker = exOneDim.marker ∧
      s1.warning_rects =
        (if exOneDim.invalid_dims then exOneDim.warning_rects
         else exOneDim.warning_rects + 1)) ∧
    (∃ s1, XYValue.update 0 exTwoDim = some s1 ∧ s1.invalid_dims = false ∧
      s1.path = exTwoDim.path ∧ s1.marker = exTwoDim.marker) :=
  ⟨update_warning_tracks_dimension_count.1 0 exOneDim (by decide),
   update_warning_tracks_dimension_count.2 0 exTwoDim (by decide)
     (by decide) (by decide)⟩

/-- C5: `reset()` clears only the accumulated data; the selected indices,
the range fields, the axes' domains and ticks, the warning state, the
rendered path and marker, and the component size are exactly as before. -/
theorem reset_preserves_configuration (s : XYValue) :
    s.reset.index_x = s.index_x ∧ s.reset.index_y = s.index_y ∧
    s.reset.min_val = s.min_val ∧ s.reset.max_val = s.max_val ∧
    s.reset.domain_x = s.domain_x ∧ s.reset.domain_y = s.domain_y ∧
    s.reset.ticks_x = s.ticks_x ∧ s.reset.ticks_y = s.ticks_y ∧
    s.reset.n_lines = s.n_lines ∧
    s.reset.data_store.dims = s.data_store.dims ∧
    s.reset.data_store.entries = [] ∧
    s.reset.invalid_dims = s.invalid_dims ∧
    s.reset.path = s.path ∧ s.reset.marker = s.marker ∧
    s.reset.warning_rects = s.warning_rects ∧
    s.reset.width = s.width ∧ s.reset.height = s.height :=
  ⟨rfl, rfl, rfl, rfl, rfl, rfl, rfl, rfl, rfl, rfl, rfl, rfl, rfl, rfl,
   rfl, rfl, rfl⟩

/-- C6, counterexample: a two-dimensional component that has data and no
warning; after `reset()` the next redraw leaves `invalid_dims = false` —
the claim predicts that it becomes `true` after every reset. -/
theorem reset_then_update_counterexample :
    (XYValue.update 0 (exThreeDim.reset)).map XYValue.invalid_dims
        = some false ∧
    ¬ (XYValue.update 0 (exThreeDim.reset)).map XYValue.invalid_dims
        = some true := by
  decide

/-- C6 (amended): after `reset()` the next redraw sets `invalid_dims` to
true exactly when the stored dimension count is at most 1 — independent of
the pre-reset warning state — and the indices and range are unchanged from
before the reset. -/
theorem reset_then_update_warning_from_dims (t : ℚ) (s s1 : XYValue)
    (h : XYValue.update t s.reset = some s1) :
    s1.invalid_dims = decide (s.data_store.dims ≤ 1) ∧
    s1.index_x = s.index_x ∧ s1.index_y = s.index_y ∧
    s1.min_val = s.min_val ∧ s1.max_val = s.max_val ∧
    s1.domain_x = s.domain_x ∧ s1.domain_y = s.domain_y := by
  obtain ⟨-, hinv, -, hix, hiy, hmn, hmx, hdx, hdy, -⟩ := update_fields h
  exact ⟨hinv, hix, hiy, hmn, hmx, hdx, hdy⟩

/-- C6 witness: the amended theorem at the reset three-dimensional
component (dimension count 3, so the warning stays off). -/
theorem reset_then_update_warning_from_dims_witness :
    exThreeDimResetDrawn.invalid_dims
        = decide (exThreeDim.data_store.dims ≤ 1) ∧
    exThreeDimResetDrawn.index_x = exThreeDim.index_x ∧
    exThreeDimResetDrawn.index_y = exThreeDim.index_y ∧
    exThreeDimResetDrawn.min_val = exThreeDim.min_val ∧
    exThreeDimResetDrawn.max_val = exThreeDim.max_val ∧
    exThreeDimResetDrawn.domain_x = exThreeDim.domain_x ∧
    exThreeDimResetDrawn.domain_y = exThreeDim.domain_y :=
  reset_then_update_warning_from_dims 0 exThreeDim _ (by decide)

/-- C9: after every (non-throwing) redraw, `invalid_dims` equals
`data_store.data.length ≤ 1`: the warning is determined solely by the
stored dimension count, never by how many samples the snapshot holds. -/
theorem update_invalid_dims_invariant (t : ℚ) (s s1 : XYValue)
    (h : XYValue.update t s = some s1) :
    s1.invalid_dims = decide (s1.data_store.data.length ≤ 1) := by
  obtain ⟨hds, hinv, -⟩ := update_fields h
  rw [hinv, hds, DataStore.length_data, DataStore.dims_update]

/-- C9 witness: the invariant at the one-dimensional fresh component
(warning on, dimension count 1). -/
theorem update_invalid_dims_invariant_witness :
    exOneDimDrawn.invalid_dims
      = decide (exOneDimDrawn.data_store.data.length ≤ 1) :=
  update_invalid_dims_invariant 0 exOneDim _ (by decide)

/-- C10: `update_range` and `update_indices` validate nothing. The index
setter is literally the unconditional field write followed by a redraw,
for any numbers whatsoever; the range setter's assignment part installs
any pair (ordered or not, zero-crossing or not) as range, domains and
ticks before resizing; consequently `update_layout` installs an arbitrary
persisted configuration — unordered range, out-of-range or fractional
indices — without rejection (shown end-to-end on a component whose redraw
cannot throw, i.e. one with at most one stored dimension). -/
theorem update_range_indices_unvalidated :
    (∀ (t ix iy : ℚ) (s : XYValue),
      XYValue.update_indices t ix iy s =
        XYValue.update t { s with index_x := ix, index_y := iy }) ∧
    (∀ (t mn mx : ℚ) (s : XYValue),
      XYValue.update_range t mn mx s =
        (s.set_range_fields mn mx).on_resize t s.width s.height ∧
      (s.set_range_fields mn mx).min_val = mn ∧
      (s.set_range_fields mn mx).max_val = mx ∧
      (s.set_range_fields mn mx).domain_x = (mn, mx) ∧
      (s.set_range_fields mn mx).domain_y = (mn, mx) ∧
      (s.set_range_fields mn mx).ticks_x = [mn, mx] ∧
      (s.set_range_fields mn mx).ticks_y = [mn, mx]) ∧
    (∀ (t : ℚ) (s : XYValue) (cfg : XYConfig), s.data_store.dims ≤ 1 →
      ∃ s1, XYValue.update_layout t cfg s = some s1 ∧
        s1.index_x = cfg.index_x ∧ s1.index_y = cfg.index_y ∧
        s1.min_val = cfg.min_value ∧ s1.max_val = cfg.max_value ∧
        s1.domain_x = (cfg.min_value, cfg.max_value) ∧
        s1.domain_y = (cfg.min_value, cfg.max_value)) := by
  refine ⟨fun t ix iy s => rfl, fun t mn mx s => ⟨rfl, rfl, rfl, rfl, rfl, rfl, rfl⟩, ?_⟩
  intro t s cfg hd
  obtain ⟨A, hA⟩ := Option.isSome_iff_exists.1
    (@update_indices_isSome t cfg.index_x cfg.index_y s
      (fun hgt => absurd hgt (Nat.not_lt.2 hd)))
  obtain ⟨hAx, hAy, -, -, -, -, hAd, -⟩ := update_indices_fields hA
  obtain ⟨B, hB⟩ := Option.isSome_iff_exists.1
    (@update_range_isSome t cfg.min_value cfg.max_value A
      (fun hgt => absurd (hAd ▸ hgt) (Nat.not_lt.2 hd)))
  obtain ⟨hBmn, hBmx, hBdx, hBdy, -, -, hBx, hBy, -⟩ := update_range_fields hB
  exact ⟨B, by rw [XYValue.update_layout, hA, Option.some_bind, hB],
    by rw [hBx, hAx], by rw [hBy, hAy], hBmn, hBmx, hBdx, hBdy⟩

/-- C10 witness: the end-to-end clause at a one-dimensional component and
the configuration `index_x = 5/2` (fractional), `index_y = -3`
(out of range), range `(5, 3)` (unordered and not zero-crossing): all of
it is installed. -/
theorem update_range_indices_unvalidated_witness :
    ∃ s1, XYValue.update_layout 0 ⟨5/2, -3, 5, 3⟩ exOneDim = some s1 ∧
      s1.index_x = (⟨5/2, -3, 5, 3⟩ : XYConfig).index_x ∧
      s1.index_y = (⟨5/2, -3, 5, 3⟩ : XYConfig).index_y ∧
      s1.min_val = (⟨5/2, -3, 5, 3⟩ : XYConfig).min_value ∧
      s1.max_val = (⟨5/2, -3, 5, 3⟩ : XYConfig).max_value ∧
      s1.domain_x = ((⟨5/2, -3, 5, 3⟩ : XYConfig).min_value,
                     (⟨5/2, -3, 5, 3⟩ : XYConfig).max_value) ∧
      s1.domain_y = ((⟨5/2, -3, 5, 3⟩ : XYConfig).min_value,
                     (⟨5/2, -3, 5, 3⟩ : XYConfig).max_value) :=
  update_range_indices_unvalidated.2.2 0 exOneDim ⟨5/2, -3, 5, 3⟩
    (by decide)

/-- C2: `set_range` accepts exactly the numeric pairs with `min < max` and
`min * max ≤ 0`. On acceptance both axes' domains (and the min/max fields)
become `[min, max]`; on any other input — unordered, not zero-crossing,
non-numeric tokens, wrong token count — the handler returns with the
component state unchanged. (The redraw embedded in acceptance needs the
currently selected indices to be usable, else the handler throws.) -/
theorem set_range_accepts_iff_ordered_zero_crossing (t : ℚ) (s : XYValue)
    (hok : 1 < s.data_store.dims →
      ValidIndex s.data_store.dims s.index_x ∧
      ValidIndex s.data_store.dims s.index_y) :
    (∀ mn mx : ℚ, mn < mx → mn * mx ≤ 0 →
      ∃ s1, XYValue.set_range_submit t [some mn, some mx] s = some s1 ∧
        s1.min_val = mn ∧ s1.max_val = mx ∧
        s1.domain_x = (mn, mx) ∧ s1.domain_y = (mn, mx)) ∧
    (∀ input : List (Option ℚ),
      (∀ a b : ℚ, input = [some a, some b] → ¬(a < b ∧ a * b ≤ 0)) →
      XYValue.set_range_submit t input s = some s) := by
  constructor
  · intro mn mx h1 h2
    have hval : xy_range_validator [some mn, some mx] = true :=
      (xy_range_validator_eq_true_iff _).2 ⟨mn, mx, rfl, h1, h2⟩
    obtain ⟨A, hA⟩ := Option.isSome_iff_exists.1
      (@update_range_isSome t mn mx s hok)
    obtain ⟨hAmn, hAmx, hAdx, hAdy, -, -, hAx, hAy, hAd⟩ :=
      update_range_fields hA
    have hokA : 1 < A.data_store.dims →
        ValidIndex A.data_store.dims A.index_x ∧
        ValidIndex A.data_store.dims A.index_y := by
      rw [hAd, hAx, hAy]; exact hok
    obtain ⟨B, hB⟩ := Option.isSome_iff_exists.1 (update_isSome hokA)
    obtain ⟨-, -, -, -, -, hBmn, hBmx, hBdx, hBdy, -⟩ := update_fields hB
    refine ⟨B, ?_, ?_, ?_, ?_, ?_⟩
    · rw [XYValue.set_range_submit, if_pos hval]
      show (XYValue.update_range t mn mx s).bind (XYValue.update t) = some B
      rw [hA, Option.some_bind]
      exact hB
    · rw [hBmn, hAmn]
    · rw [hBmx, hAmx]
    · rw [hBdx, hAdx]
    · rw [hBdy, hAdy]
  · intro input hbad
    have hval : xy_range_validator input = false := by
      rw [Bool.eq_false_iff]
      intro hv
      obtain ⟨a, b, rfl, h1, h2⟩ := (xy_range_validator_eq_true_iff _).1 hv
      exact hbad a b rfl ⟨h1, h2⟩
    rw [XYValue.set_range_submit.eq_def, hval]
    rfl

/-- C2 witness: on the fresh 2-dimensional component, `(-5, 10)` is
accepted and installed on both axes; `(2, 10)` (no zero crossing),
`(10, -5)` (unordered), a non-numeric token and a one-token input are all
rejected without a state change. -/
theorem set_range_accepts_iff_ordered_zero_crossing_witness :
    (∃ s1, XYValue.set_range_submit 0 [some (-5), some 10] exTwoDim
        = some s1 ∧
      s1.min_val = -5 ∧ s1.max_val = 10 ∧
      s1.domain_x = (-5, 10) ∧ s1.domain_y = (-5, 10)) ∧
    XYValue.set_range_submit 0 [some 2, some 10] exTwoDim = some exTwoDim ∧
    XYValue.set_range_submit 0 [some 10, some (-5)] exTwoDim
        = some exTwoDim ∧
    XYValue.set_range_submit 0 [none, some 10] exTwoDim = some exTwoDim ∧
    XYValue.set_range_submit 0 [some (-5)] exTwoDim = some exTwoDim :=
  ⟨(set_range_accepts_iff_ordered_zero_crossing 0 exTwoDim (by decide)).1
      (-5) 10 (by norm_num) (by norm_num),
   (set_range_accepts_iff_ordered_zero_crossing 0 exTwoDim (by decide)).2
      [some 2, some 10]
      (by rintro a b he hc; simp only [List.cons.injEq,
            Option.some.injEq, and_true] at he;
          rcases he with ⟨rfl, rfl⟩; norm_num at hc),
   (set_range_accepts_iff_ordered_zero_crossing 0 exTwoDim (by decide)).2
      [some 10, some (-5)]
      (by rintro a b he hc; simp only [List.cons.injEq,
            Option.some.injEq, and_true] at he;
          rcases he with ⟨rfl, rfl⟩; norm_num at hc),
   (set_range_accepts_iff_ordered_zero_crossing 0 exTwoDim (by decide)).2
      [none, some 10] (by rintro a b he hc; simp at he),
   (set_range_accepts_iff_ordered_zero_crossing 0 exTwoDim (by decide)).2
      [some (-5)] (by rintro a b he hc; simp at he)⟩

/-- C3: `set_indices` accepts exactly the pairs of integral values both in
`[0, N)` (N = `n_lines`, which is the store's dimension count); equal
indices are accepted — the validator never compares the two tokens. On
acceptance both indices are stored; on any non-integral or out-of-range
token (or wrong token count) the handler returns with the state
unchanged. -/
theorem set_indices_accepts_iff_integral_in_bounds (t : ℚ) (s : XYValue)
    (hnd : s.data_store.dims = s.n_lines) :
    (∀ a b : ℚ, a.den = 1 → b.den = 1 →
      0 ≤ a → a < (s.n_lines : ℚ) → 0 ≤ b → b < (s.n_lines : ℚ) →
      ∃ s1, XYValue.set_indices_submit t [some a, some b] s = some s1 ∧
        s1.index_x = a ∧ s1.index_y = b) ∧
    (∀ input : List (Option ℚ),
      (∀ a b : ℚ, input = [some a, some b] →
        ¬(a.den = 1 ∧ b.den = 1 ∧ 0 ≤ a ∧ a < (s.n_lines : ℚ) ∧
          0 ≤ b ∧ b < (s.n_lines : ℚ))) →
      XYValue.set_indices_submit t input s = some s) := by
  constructor
  · intro a b ha1 hb1 ha2 ha3 hb2 hb3
    have hval : xy_indices_validator s.n_lines [some a, some b] = true :=
      (xy_indices_validator_eq_true_iff _ _).2
        ⟨a, b, rfl, ha1, hb1, ha2, ha3, hb2, hb3⟩
    have hva : ValidIndex s.data_store.dims a := by
      rw [hnd]; exact validIndex_of_rat ha1 ha2 ha3
    have hvb : ValidIndex s.data_store.dims b := by
      rw [hnd]; exact validIndex_of_rat hb1 hb2 hb3
    obtain ⟨A, hA⟩ := Option.isSome_iff_exists.1
      (@update_indices_isSome t a b s (fun _ => ⟨hva, hvb⟩))
    obtain ⟨hAx, hAy, -⟩ := update_indices_fields hA
    refine ⟨A, ?_, hAx, hAy⟩
    rw [XYValue.set_indices_submit, if_pos hval]
    exact hA
  · intro input hbad
    have hval : xy_indices_validator s.n_lines input = false := by
      rw [Bool.eq_false_iff]
      intro hv
      obtain ⟨a, b, rfl, h1, h2, h3, h4, h5, h6⟩ :=
        (xy_indices_validator_eq_true_iff _ _).1 hv
      exact hbad a b rfl ⟨h1, h2, h3, h4, h5, h6⟩
    rw [XYValue.set_indices_submit.eq_def, hval]
    rfl

/-- C3 witness: on the 3-dimensional component, the *equal* pair `(1, 1)`
is accepted and stored (distinctness is not required); the out-of-range
pair `(1, 3)`, the fractional pair `(1, 3/2)` and a non-numeric token are
rejected without a state change. -/
theorem set_indices_accepts_iff_integral_in_bounds_witness :
    (∃ s1, XYValue.set_indices_submit 0 [some 1, some 1] exThreeDim
        = some s1 ∧ s1.index_x = 1 ∧ s1.index_y = 1) ∧
    XYValue.set_indices_submit 0 [some 1, some 3] exThreeDim
        = some exThreeDim ∧
    XYValue.set_indices_submit 0 [some 1, some (3/2)] exThreeDim
        = some exThreeDim ∧
    XYValue.set_indices_submit 0 [some 1, none] exThreeDim
        = some exThreeDim :=
  ⟨(set_indices_accepts_iff_integral_in_bounds 0 exThreeDim rfl).1 1 1
      (by norm_num) (by norm_num) (by norm_num)
      (by show (1 : ℚ) < ((3 : Nat) : ℚ); norm_num) (by norm_num)
      (by show (1 : ℚ) < ((3 : Nat) : ℚ); norm_num),
   (set_indices_accepts_iff_integral_in_bounds 0 exThreeDim rfl).2
      [some 1, some 3]
      (by rintro a b he hc; simp only [List.cons.injEq,
            Option.some.injEq, and_true] at he;
          rcases he with ⟨rfl, rfl⟩; norm_num at hc;
          exact absurd hc.2 (by decide)),
   (set_indices_accepts_iff_integral_in_bounds 0 exThreeDim rfl).2
      [some 1, some (3/2)]
      (by rintro a b he hc; simp only [List.cons.injEq,
            Option.some.injEq, and_true] at he;
          rcases he with ⟨rfl, rfl⟩;
          exact absurd hc.2.1 (by norm_num [Rat.den])),
   (set_indices_accepts_iff_integral_in_bounds 0 exThreeDim rfl).2
      [some 1, none] (by rintro a b he hc; simp at he)⟩

/-- C4, counterexample: on the fresh 2-dimensional component (domains
`(-1, 1)`), importing the configuration `{index_x = 1, index_y = 0,
min = -2, max = 2}` produces a FIRST draw that already uses the new
indices `(1, 0)` while both axes still hold the old domain `(-1, 1)` —
`update_layout` applies and renders the indices before the range, exactly
the intermediate draw the claim says cannot happen. -/
theorem update_layout_order_counterexample :
    (XYValue.update_layoutT 0 ⟨1, 0, -2, 2⟩ exTwoDim).2.head? =
      some ⟨1, 0, (-1, 1), (-1, 1)⟩ ∧
    ((-1, 1) : ℚ × ℚ) ≠ ((-2, 2) : ℚ × ℚ) := by
  decide

/-- C4 (amended): `update_layout` applies the persisted *indices* first —
rendering once with the new indices under the still-old range — and only
then applies the persisted range and renders again; the final state
carries the new indices and the new range. -/
theorem update_layout_indices_before_range (t : ℚ) (cfg : XYConfig)
    (s s1 : XYValue) (h : XYValue.update_layout t cfg s = some s1) :
    (XYValue.update_layoutT t cfg s).2 =
      [⟨cfg.index_x, cfg.index_y, s.domain_x, s.domain_y⟩,
       ⟨cfg.index_x, cfg.index_y, (cfg.min_value, cfg.max_value),
        (cfg.min_value, cfg.max_value)⟩] ∧
    s1.index_x = cfg.index_x ∧ s1.index_y = cfg.index_y ∧
    s1.domain_x = (cfg.min_value, cfg.max_value) ∧
    s1.domain_y = (cfg.min_value, cfg.max_value) := by
  obtain ⟨A, hA, hR⟩ := Option.bind_eq_some.1 h
  obtain ⟨hAx, hAy, -, -, hAdx, hAdy, -, -⟩ := update_indices_fields hA
  obtain ⟨-, -, hdx, hdy, -, -, hsx, hsy, -⟩ := update_range_fields hR
  refine ⟨?_, by rw [hsx, hAx], by rw [hsy, hAy], hdx, hdy⟩
  have hA2 : XYValue.update t { s with index_x := cfg.index_x, index_y := cfg.index_y } = some A := hA
  simp only [XYValue.update_layoutT, XYValue.update_indicesT,
    XYValue.updateT, XYValue.update_rangeT, XYValue.on_resizeT,
    XYValue.draw_of, XYValue.set_range_fields, hA2]
  simp [hAx, hAy]

/-- C4 witness: the amended theorem at the counterexample's input. -/
theorem update_layout_indices_before_range_witness :
    (XYValue.update_layoutT 0 ⟨1, 0, -2, 2⟩ exTwoDim).2 =
      [⟨(⟨1, 0, -2, 2⟩ : XYConfig).index_x,
        (⟨1, 0, -2, 2⟩ : XYConfig).index_y,
        exTwoDim.domain_x, exTwoDim.domain_y⟩,
       ⟨(⟨1, 0, -2, 2⟩ : XYConfig).index_x,
        (⟨1, 0, -2, 2⟩ : XYConfig).index_y,
        ((⟨1, 0, -2, 2⟩ : XYConfig).min_value,
         (⟨1, 0, -2, 2⟩ : XYConfig).max_value),
        ((⟨1, 0, -2, 2⟩ : XYConfig).min_value,
         (⟨1, 0, -2, 2⟩ : XYConfig).max_value)⟩] ∧
    exLayoutDrawn.index_x = (⟨1, 0, -2, 2⟩ : XYConfig).index_x ∧
    exLayoutDrawn.index_y = (⟨1, 0, -2, 2⟩ : XYConfig).index_y ∧
    exLayoutDrawn.domain_x = ((⟨1, 0, -2, 2⟩ : XYConfig).min_value,
      (⟨1, 0, -2, 2⟩ : XYConfig).max_value) ∧
    exLayoutDrawn.domain_y = ((⟨1, 0, -2, 2⟩ : XYConfig).min_value,
      (⟨1, 0, -2, 2⟩ : XYConfig).max_value) :=
  update_layout_indices_before_range 0 ⟨1, 0, -2, 2⟩ exTwoDim
    exLayoutDrawn (by decide)

/-- C7: on a non-degenerate snapshot (at least two stored dimensions,
both indices valid, at least one sample in the window), the redraw binds
the path to the pointwise zip of the `index_x` column with the `index_y`
column of the snapshot, in sample order, and centres the tracking circle
on the pair formed from the last element of each selected column; the
warning is off. -/
theorem update_renders_zip_and_last_marker (t : ℚ) (s : XYValue)
    (colx coly : List ℚ)
    (hd : 1 < s.data_store.dims)
    (hx : ValidIndex s.data_store.dims s.index_x)
    (hy : ValidIndex s.data_store.dims s.index_y)
    (hcx : jsGet? (s.data_store.update t).get_shown_data s.index_x
        = some colx)
    (hcy : jsGet? (s.data_store.update t).get_shown_data s.index_y
        = some coly)
    (hne : colx ≠ []) :
    (XYValue.update t s).map XYValue.path = some (some (colx.zip coly)) ∧
    (XYValue.update t s).map XYValue.marker =
      some (colx.getLastD 0, coly.getLastD 0) ∧
    (XYValue.update t s).map XYValue.invalid_dims = some false := by
  have hx2 : ValidIndex (s.data_store.update t).dims s.index_x := hx
  have hy2 : ValidIndex (s.data_store.update t).dims s.index_y := hy
  have hlx := hcx
  have hly := hcy
  rw [jsGet?_shown_of_valid _ _ hx2, Option.some.injEq] at hlx
  rw [jsGet?_shown_of_valid _ _ hy2, Option.some.injEq] at hly
  have hlen : coly.length = colx.length := by
    rw [← hlx, ← hly]; simp
  have hpos : (0 : ℤ) ≤ (colx.length : ℤ) - 1 := by
    have := List.length_pos.2 hne; omega
  have hyne : coly ≠ [] := by
    rw [← List.length_pos, hlen]; exact List.length_pos.2 hne
  have hmark : colx.getD (colx.length - 1) 0 = colx.getLastD 0 :=
    getD_length_sub_one 0 hne
  have hmark2 : coly.getD (colx.length - 1) 0 = coly.getLastD 0 := by
    rw [← hlen]; exact getD_length_sub_one 0 hyne
  simp only [XYValue.update, DataStore.length_data, DataStore.dims_update,
    if_pos hd, hcx, if_pos hpos, hcy, Option.map_some', hmark, hmark2]
  refine ⟨?_, ?_, ?_⟩ <;> split <;> first | rfl | simp_all

/-- C7 witness: the §8 scenario — N = 3, samples `[0,0,0]`, `[1,2,3]`,
`[4,5,6]`, `index_x = 0`, `index_y = 1`: the columns are `[0,1,4]` and
`[0,2,5]`, the rendered path is `(0,0), (1,2), (4,5)` and the marker sits
at `(4,5)`. -/
theorem update_renders_zip_and_last_marker_witness :
    ((XYValue.update 0 exThreeDim).map XYValue.path
        = some (some (([0, 1, 4] : List ℚ).zip ([0, 2, 5] : List ℚ))) ∧
     (XYValue.update 0 exThreeDim).map XYValue.marker
        = some (([0, 1, 4] : List ℚ).getLastD 0,
                ([0, 2, 5] : List ℚ).getLastD 0) ∧
     (XYValue.update 0 exThreeDim).map XYValue.invalid_dims
        = some false) ∧
    ([0, 1, 4] : List ℚ).zip ([0, 2, 5] : List ℚ)
        = [(0, 0), (1, 2), (4, 5)] ∧
    ((([0, 1, 4] : List ℚ).getLastD 0, ([0, 2, 5] : List ℚ).getLastD 0)
        = ((4 : ℚ), (5 : ℚ))) :=
  ⟨update_renders_zip_and_last_marker 0 exThreeDim [0, 1, 4] [0, 2, 5]
      (by decide) (by decide) (by decide) (by decide) (by decide)
      (by decide),
   by decide, by decide⟩

/-- C8: the redraw is idempotent — a second `update` with no intervening
message, reset or reconfiguration returns the state of the first
unchanged, so path, marker, warning and all other fields render
identically both times. -/
theorem update_idempotent (t : ℚ) (s s1 : XYValue)
    (h : XYValue.update t s = some s1) :
    XYValue.update t s1 = some s1 := by
  have hds := (update_fields h).1
  have hidem : s1.data_store.update t = s1.data_store := by
    rw [hds]; exact DataStore.update_update t _
  by_cases hdim : 1 < s.data_store.dims
  case neg =>
    have hd1 : s.data_store.dims ≤ 1 := Nat.le_of_not_lt hdim
    have hinv : s1.invalid_dims = true := by
      rw [(update_fields h).2.1]; exact decide_eq_true hd1
    have hd2 : s1.data_store.dims ≤ 1 := by rw [hds]; exact hd1
    rw [update_of_dims_le_one hd2,
      if_neg (show ¬ s1.invalid_dims = false by simp [hinv]), hidem]
  case pos =>
    simp only [XYValue.update, DataStore.length_data, DataStore.dims_update,
      if_pos hdim] at h
    cases hcx : jsGet? (s.data_store.update t).get_shown_data s.index_x with
    | none => rw [hcx] at h; exact absurd h (by simp)
    | some colx =>
      rw [hcx] at h
      dsimp only at h
      by_cases hlen : (0 : ℤ) ≤ (colx.length : ℤ) - 1
      · rw [if_pos hlen] at h
        cases hcy : jsGet? (s.data_store.update t).get_shown_data
            s.index_y with
        | none => rw [hcy] at h; exact absurd h (by simp)
        | some coly =>
          rw [hcy] at h
          dsimp only at h
          simp only [Option.map_some', Option.some.injEq] at h
          split at h <;> subst h <;>
            simp only [XYValue.update, DataStore.update_update,
              DataStore.length_data, DataStore.dims_update, if_pos hdim,
              hcx, if_pos hlen, hcy, Option.map_some'] <;>
            split <;> simp_all
      · rw [if_neg hlen] at h
        simp only [Option.map_some', Option.some.injEq] at h
        split at h <;> subst h <;>
          simp only [XYValue.update, DataStore.update_update,
            DataStore.length_data, DataStore.dims_update, if_pos hdim,
            hcx, if_neg hlen, Option.map_some'] <;>
          split <;> simp_all

/-- C8 witness: redrawing the already-drawn three-dimensional component
reproduces it exactly. -/
theorem update_idempotent_witness :
    XYValue.update 0 exThreeDimDrawn = some exThreeDimDrawn :=
  update_idempotent 0 exThreeDim exThreeDimDrawn (by decide)

end NengoViz

